import Mathlib

/-!
Shallow embedding of
`src/python/tk_multi_importcut/widgets/translate_file_reference/translate_file_reference_module.c`
and its header `translate_file_reference_module.h`.

The C file is a Python-2 native extension shim:
  * `translate_file_reference_translate_url(self, args)` parses a single
    string argument from `args` (via `PyArg_ParseTuple(args, "s", &url)`),
    returns `NULL` on parse failure, and otherwise forwards the string,
    together with the module-level global `module`, to the external
    resolver `translate_url` (declared in the header, not defined here),
    returning the resolver's result unchanged.
  * `translate_file_reference_methods` is the method-dispatch table with a
    single named entry followed by the `{NULL}` sentinel.
  * `inittranslate_file_reference` creates the module with
    `Py_InitModule3`, bails out if that fails, otherwise creates a
    `PyCObject` capability object (adding it under
    `"translate_file_reference_CAPI"` only when creation succeeds) and
    unconditionally registers the docstring under `"__doc__"`.

Python objects are modelled by `PyValue`; a `NULL` `PyObject *` result is
`none : Option PyValue`.  The external resolver is a parameter of the
handler.  The handler additionally returns the list of calls it makes to
the resolver, so that "the resolver is invoked" is a statable property.
Module initialization is a pure function of an `InitEnv` recording which
of the fallible runtime calls succeed, returning an `InitResult` that
records the module global, the arguments of the runtime calls made, and
the attributes added to the module.
-/

/-- A Python object, as far as this module can observe it: a string, a
tuple (the `args` of a `METH_VARARGS` call), or some other object
identified by a tag. -/
inductive PyValue : Type
  | str : String → PyValue
  | tuple : List PyValue → PyValue
  | obj : Nat → PyValue

/-- Structural equality test on `PyValue` (hand-rolled because the nested
`List` defeats automatic derivation). -/
def PyValue.beq : PyValue → PyValue → Bool
  | .str a, .str b => a == b
  | .tuple xs, .tuple ys => beqList xs ys
  | .obj a, .obj b => a == b
  | _, _ => false
where
  /-- Elementwise equality test on lists of `PyValue`. -/
  beqList : List PyValue → List PyValue → Bool
  | [], [] => true
  | x :: xs, y :: ys => PyValue.beq x y && beqList xs ys
  | _, _ => false

instance : BEq PyValue := ⟨PyValue.beq⟩

mutual

theorem PyValue.beq_iff_eq : ∀ a b : PyValue, a.beq b = true ↔ a = b
  | .str a, .str b => by simp [PyValue.beq]
  | .str _, .tuple _ => by simp [PyValue.beq]
  | .str _, .obj _ => by simp [PyValue.beq]
  | .tuple _, .str _ => by simp [PyValue.beq]
  | .tuple xs, .tuple ys => by
    simp only [PyValue.beq, PyValue.tuple.injEq]
    exact PyValue.beqList_iff_eq xs ys
  | .tuple _, .obj _ => by simp [PyValue.beq]
  | .obj _, .str _ => by simp [PyValue.beq]
  | .obj _, .tuple _ => by simp [PyValue.beq]
  | .obj a, .obj b => by simp [PyValue.beq]

theorem PyValue.beqList_iff_eq :
    ∀ xs ys : List PyValue, PyValue.beq.beqList xs ys = true ↔ xs = ys
  | [], [] => by simp [PyValue.beq.beqList]
  | [], _ :: _ => by simp [PyValue.beq.beqList]
  | _ :: _, [] => by simp [PyValue.beq.beqList]
  | x :: xs, y :: ys => by
    simp [PyValue.beq.beqList, PyValue.beq_iff_eq x y,
      PyValue.beqList_iff_eq xs ys]

end

instance : DecidableEq PyValue := fun a b =>
  decidable_of_iff (PyValue.beq a b = true) (PyValue.beq_iff_eq a b)

/-- `PyArg_ParseTuple(args, "s", &url)`: succeeds exactly when `args` is a
one-element tuple whose element is a string, yielding that string. -/
def parseTupleS : PyValue → Option String
  | .tuple [.str s] => some s
  | _ => none

/-- The body of the C handler `translate_file_reference_translate_url`.
`translate_url` is the external resolver (a `NULL` return is `none`);
`module` is the module-level static global; `self` and `args` are the two
`PyObject *` parameters.  Returns the handler's result together with the
list of `(module, url)` calls made to the resolver. -/
def translate_file_reference_translate_url
    (translate_url : PyValue → String → Option PyValue)
    (module : PyValue) (self : PyValue) (args : PyValue) :
    Option PyValue × List (PyValue × String) :=
  match parseTupleS args with
  | none => (none, [])
  | some url =>
    let translation := translate_url module url
    (translation, [(module, url)])

/-- The native function pointers that can appear in a `PyMethodDef`.  This
module has exactly one. -/
inductive CFunction : Type
  | translate_file_reference_translate_url_fn : CFunction
  deriving DecidableEq, Repr

/-- `METH_VARARGS` flag value (CPython's `0x0001`). -/
def METH_VARARGS : Nat := 1

/-- One entry of a `PyMethodDef[]` table; the `{NULL}` sentinel has all
fields zeroed. -/
structure PyMethodDef : Type where
  ml_name : Option String
  ml_meth : Option CFunction
  ml_flags : Nat
  ml_doc : Option String
  deriving DecidableEq, Repr

/-- The `{NULL}` sentinel entry terminating a method table. -/
def nullMethodDef : PyMethodDef :=
  { ml_name := none, ml_meth := none, ml_flags := 0, ml_doc := none }

/-- The method-dispatch table `translate_file_reference_methods` of the C
file: one named entry and the sentinel. -/
def translate_file_reference_methods : List PyMethodDef :=
  [ { ml_name := some "translate_url",
      ml_meth := some .translate_file_reference_translate_url_fn,
      ml_flags := METH_VARARGS,
      ml_doc := some "Translate a url" },
    nullMethodDef ]

/-- The `docstring` constant of the C file. -/
def docstring : String :=
  "Translate urls to file paths\n" ++
  "\n" ++
  "translate_file_reference.translate_url(url)\n" ++
  "  Translate the given URL to a filesystem path."

/-- A value added to the module as an attribute: either the capability
`PyCObject` (identified by a tag) or a Python string object. -/
inductive AttrVal : Type
  | capiObject : Nat → AttrVal
  | strObj : String → AttrVal
  deriving DecidableEq, Repr

/-- The environment of `inittranslate_file_reference`: the outcomes of the
two fallible runtime calls it makes.  `none` models a `NULL` return. -/
structure InitEnv : Type where
  /-- What `Py_InitModule3` returns: the module object, or `NULL`. -/
  initModule3_result : Option Nat
  /-- What `PyCObject_FromVoidPtrAndDesc` returns: the capability object,
  or `NULL`. -/
  cobject_result : Option Nat
  deriving DecidableEq, Repr

/-- Observable outcome of `inittranslate_file_reference`: the final value
of the static `module` global, the arguments passed to `Py_InitModule3`,
the `desc` passed to `PyCObject_FromVoidPtrAndDesc` (`none` when that call
was never made), and the `PyModule_AddObject` calls performed, in order. -/
structure InitResult : Type where
  module : Option Nat
  initCallName : String
  initCallMethods : List PyMethodDef
  initCallDoc : String
  capiDesc : Option String
  addedAttrs : List (String × AttrVal)
  deriving DecidableEq, Repr

/-- The body of `inittranslate_file_reference`.  Mirrors the C control
flow: create the module (returning at once on failure), then create the
capability object and add it only if creation succeeded, then create the
docstring object and add it unconditionally. -/
def inittranslate_file_reference (env : InitEnv) : InitResult :=
  match env.initModule3_result with
  | none =>
    { module := none,
      initCallName := "translate_file_reference",
      initCallMethods := translate_file_reference_methods,
      initCallDoc := "Translate file paths",
      capiDesc := none,
      addedAttrs := [] }
  | some m =>
    let capiAttrs : List (String × AttrVal) :=
      match env.cobject_result with
      | some c => [("translate_file_reference_CAPI", .capiObject c)]
      | none => []
    { module := some m,
      initCallName := "translate_file_reference",
      initCallMethods := translate_file_reference_methods,
      initCallDoc := "Translate file paths",
      capiDesc := some "translate_file_reference.translate_file_reference_CAPI",
      addedAttrs := capiAttrs ++ [("__doc__", .strObj docstring)] }

/-- The two names used by the header's `Py_TRANSLATE_FILE_REFERENCE_IMPORT`
macro, i.e. the arguments of its
`PyCObject_Import("translate_file_reference", "translate_file_reference_CAPI")`. -/
def Py_TRANSLATE_FILE_REFERENCE_IMPORT_names : String × String :=
  ("translate_file_reference", "translate_file_reference_CAPI")

/-! ## Theorems -/

/-- C1: the exposed handler fails (returns `NULL`, i.e. `none`) without
calling the external resolver exactly when argument validation
(`PyArg_ParseTuple(args, "s", ...)`) fails; equivalently, the resolver is
invoked exactly on those calls whose single argument parses as a string. -/
theorem translate_url_fails_iff_parse_fails
    (translate_url : PyValue → String → Option PyValue)
    (module self args : PyValue) :
    (((translate_file_reference_translate_url translate_url module self args).1 = none ∧
      (translate_file_reference_translate_url translate_url module self args).2 = []) ↔
      parseTupleS args = none) ∧
    ((translate_file_reference_translate_url translate_url module self args).2 = [] ↔
      parseTupleS args = none) := by
  unfold translate_file_reference_translate_url
  cases h : parseTupleS args <;> simp

/-- C2: whenever argument parsing succeeds, the handler's result is
exactly what the external resolver returns for the parsed string — in
particular a `NULL` (`none`) from the resolver becomes the handler's own
result. -/
theorem translate_url_forwards_resolver_result
    (translate_url : PyValue → String → Option PyValue)
    (module self args : PyValue) (url : String)
    (h : parseTupleS args = some url) :
    (translate_file_reference_translate_url translate_url module self args).1 =
      translate_url module url := by
  unfold translate_file_reference_translate_url
  rw [h]

/-- Witness for C2, at a resolver that returns `NULL`: the `none` is
propagated unchanged. -/
theorem translate_url_forwards_resolver_result_witness :
    parseTupleS (.tuple [.str "file:///a"]) = some "file:///a" ∧
    (translate_file_reference_translate_url (fun _ _ => none) (.obj 0) (.obj 1)
      (.tuple [.str "file:///a"])).1 = none :=
  ⟨rfl,
    translate_url_forwards_resolver_result (fun _ _ => none) (.obj 0) (.obj 1)
      (.tuple [.str "file:///a"]) "file:///a" rfl⟩

/-- C3: whenever argument parsing succeeds, the handler calls the external
resolver exactly once, passing the module-level global object and the
parsed string unchanged. -/
theorem translate_url_calls_resolver_once
    (translate_url : PyValue → String → Option PyValue)
    (module self args : PyValue) (url : String)
    (h : parseTupleS args = some url) :
    (translate_file_reference_translate_url translate_url module self args).2 =
      [(module, url)] := by
  unfold translate_file_reference_translate_url
  rw [h]

/-- Witness for C3. -/
theorem translate_url_calls_resolver_once_witness :
    parseTupleS (.tuple [.str "file:///b"]) = some "file:///b" ∧
    (translate_file_reference_translate_url (fun _ _ => none) (.obj 2) (.obj 3)
      (.tuple [.str "file:///b"])).2 = [(.obj 2, "file:///b")] :=
  ⟨rfl,
    translate_url_calls_resolver_once (fun _ _ => none) (.obj 2) (.obj 3)
      (.tuple [.str "file:///b"]) "file:///b" rfl⟩

/-- C4: the method-dispatch table has exactly two entries: one named
entry, mapping the exported name "translate_url" to the native handler
with flag `METH_VARARGS` and doc "Translate a url", followed by the
`{NULL}` sentinel; no other named entry exists. -/
theorem methods_table_single_entry :
    translate_file_reference_methods.length = 2 ∧
    translate_file_reference_methods.head? = some
      { ml_name := some "translate_url",
        ml_meth := some .translate_file_reference_translate_url_fn,
        ml_flags := METH_VARARGS,
        ml_doc := some "Translate a url" } ∧
    translate_file_reference_methods.getLast? = some nullMethodDef ∧
    (translate_file_reference_methods.filter fun m => m.ml_name.isSome) =
      [ { ml_name := some "translate_url",
          ml_meth := some .translate_file_reference_translate_url_fn,
          ml_flags := METH_VARARGS,
          ml_doc := some "Translate a url" } ] :=
  ⟨rfl, rfl, rfl, rfl⟩

/-- C5: when module creation and capability-object creation both succeed,
initialization adds the capability object under the attribute name
"translate_file_reference_CAPI", and the module name passed to
`Py_InitModule3` and that attribute name are exactly the two names the
header's `Py_TRANSLATE_FILE_REFERENCE_IMPORT` macro passes to
`PyCObject_Import`. -/
theorem init_exports_capi
    (env : InitEnv) (m c : Nat)
    (hm : env.initModule3_result = some m)
    (hc : env.cobject_result = some c) :
    (Py_TRANSLATE_FILE_REFERENCE_IMPORT_names.2, AttrVal.capiObject c) ∈
      (inittranslate_file_reference env).addedAttrs ∧
    (inittranslate_file_reference env).initCallName =
      Py_TRANSLATE_FILE_REFERENCE_IMPORT_names.1 := by
  unfold inittranslate_file_reference
  rw [hm, hc]
  exact ⟨List.mem_cons_self _ _, rfl⟩

/-- Witness for C5. -/
theorem init_exports_capi_witness :
    (InitEnv.mk (some 0) (some 1)).initModule3_result = some 0 ∧
    (InitEnv.mk (some 0) (some 1)).cobject_result = some 1 ∧
    ((Py_TRANSLATE_FILE_REFERENCE_IMPORT_names.2, AttrVal.capiObject 1) ∈
      (inittranslate_file_reference (InitEnv.mk (some 0) (some 1))).addedAttrs ∧
    (inittranslate_file_reference (InitEnv.mk (some 0) (some 1))).initCallName =
      Py_TRANSLATE_FILE_REFERENCE_IMPORT_names.1) :=
  ⟨rfl, rfl, init_exports_capi (InitEnv.mk (some 0) (some 1)) 0 1 rfl rfl⟩

set_option maxRecDepth 20000 in
/-- C6: after successful module creation, initialization sets the module's
"__doc__" attribute to the fixed `docstring` constant, whose text contains
both "translate_file_reference.translate_url(url)" and "Translate the
given URL to a filesystem path." -/
theorem init_registers_docstring
    (env : InitEnv) (m : Nat)
    (hm : env.initModule3_result = some m) :
    ("__doc__", AttrVal.strObj docstring) ∈
      (inittranslate_file_reference env).addedAttrs ∧
    List.IsInfix "translate_file_reference.translate_url(url)".data docstring.data ∧
    List.IsInfix "Translate the given URL to a filesystem path.".data docstring.data := by
  refine ⟨?_, by decide, by decide⟩
  unfold inittranslate_file_reference
  rw [hm]
  cases env.cobject_result <;> simp

/-- Witness for C6. -/
theorem init_registers_docstring_witness :
    (InitEnv.mk (some 4) none).initModule3_result = some 4 ∧
    (("__doc__", AttrVal.strObj docstring) ∈
      (inittranslate_file_reference (InitEnv.mk (some 4) none)).addedAttrs ∧
    List.IsInfix "translate_file_reference.translate_url(url)".data docstring.data ∧
    List.IsInfix "Translate the given URL to a filesystem path.".data docstring.data) :=
  ⟨rfl, init_registers_docstring (InitEnv.mk (some 4) none) 4 rfl⟩

/-- C7: when `Py_InitModule3` fails, initialization returns immediately:
the module global stays `NULL`, `PyCObject_FromVoidPtrAndDesc` is never
called, and no attribute (neither the capability object nor the
docstring) is added. -/
theorem init_aborts_on_module_failure
    (env : InitEnv)
    (h : env.initModule3_result = none) :
    inittranslate_file_reference env =
      { module := none,
        initCallName := "translate_file_reference",
        initCallMethods := translate_file_reference_methods,
        initCallDoc := "Translate file paths",
        capiDesc := none,
        addedAttrs := [] } := by
  unfold inittranslate_file_reference
  rw [h]

/-- Witness for C7. -/
theorem init_aborts_on_module_failure_witness :
    (InitEnv.mk none (some 9)).initModule3_result = none ∧
    inittranslate_file_reference (InitEnv.mk none (some 9)) =
      { module := none,
        initCallName := "translate_file_reference",
        initCallMethods := translate_file_reference_methods,
        initCallDoc := "Translate file paths",
        capiDesc := none,
        addedAttrs := [] } :=
  ⟨rfl, init_aborts_on_module_failure (InitEnv.mk none (some 9)) rfl⟩

/-- C8: when the module is created but the capability object comes back
`NULL`, initialization does not abort: the "translate_file_reference_CAPI"
attribute is skipped and the docstring is still registered — the only
attribute added is "__doc__". -/
theorem init_continues_after_capi_failure
    (env : InitEnv) (m : Nat)
    (hm : env.initModule3_result = some m)
    (hc : env.cobject_result = none) :
    (inittranslate_file_reference env).addedAttrs =
      [("__doc__", AttrVal.strObj docstring)] := by
  unfold inittranslate_file_reference
  rw [hm, hc]
  rfl

/-- Witness for C8. -/
theorem init_continues_after_capi_failure_witness :
    (InitEnv.mk (some 6) none).initModule3_result = some 6 ∧
    (InitEnv.mk (some 6) none).cobject_result = none ∧
    (inittranslate_file_reference (InitEnv.mk (some 6) none)).addedAttrs =
      [("__doc__", AttrVal.strObj docstring)] :=
  ⟨rfl, rfl, init_continues_after_capi_failure (InitEnv.mk (some 6) none) 6 rfl rfl⟩

/-- C9: the handler's behavior — both its result and its calls to the
resolver — is independent of the `self` parameter: for identical argument
tuples and any two `self` values the outcome is identical, because the
resolver is always passed the module-level global, never `self`. -/
theorem translate_url_independent_of_self
    (translate_url : PyValue → String → Option PyValue)
    (module args : PyValue) (self1 self2 : PyValue) :
    translate_file_reference_translate_url translate_url module self1 args =
    translate_file_reference_translate_url translate_url module self2 args := rfl
